import Mathlib

/-!
Shallow embedding of the CLP (container loading problem) geometry and
block-building engine from `src/clp/base.py`: `Itemdict`, `Aabb`, `Space`,
`FreeSpace`, `Block` and `BlockList`.  Python `int`s are modelled by `Int`,
Python `float` division in the join gate by `ℚ`, raised exceptions
(`ValueError`, `KeyError`, `ZeroDivisionError`) by `Option`/`none`.
-/

namespace CLP

/-! ## Itemdict (`base.py` lines 32-110)

A Python `dict` keyed by box-type identity with integer counts, modelled as an
association list (first occurrence of a key is authoritative, insertion of a
fresh key appends, matching `dict` semantics). -/

/-- Association-list model of `Itemdict`: keys are box-type ids. -/
abbrev Itemdict := List (Nat × Int)

/-- `d.get(k, 0)` — value of `k`, defaulting to 0. -/
def Itemdict.getD (d : Itemdict) (k : Nat) : Int :=
  match d with
  | [] => 0
  | (k', v) :: rest => if k' = k then v else Itemdict.getD rest k

/-- `d[k]` — `dict.__getitem__`, `none` models a raised `KeyError`. -/
def Itemdict.find? (d : Itemdict) (k : Nat) : Option Int :=
  match d with
  | [] => none
  | (k', v) :: rest => if k' = k then some v else Itemdict.find? rest k

/-- `d[k] = v` — update the (first) binding of `k`, or append a fresh one. -/
def Itemdict.setKey (d : Itemdict) (k : Nat) (v : Int) : Itemdict :=
  match d with
  | [] => [(k, v)]
  | (k', v') :: rest =>
      if k' = k then (k', v) :: rest else (k', v') :: Itemdict.setKey rest k v

/-- `Itemdict.__iadd__`: for each key of `other`,
`self[key] = self.get(key, 0) + other[key]`. -/
def Itemdict.iadd (d other : Itemdict) : Itemdict :=
  other.foldl (fun a kv => a.setKey kv.1 (a.getD kv.1 + kv.2)) d

/-- `Itemdict.__isub__`: for each key of `other`,
`self[key] = self.get(key, 0) - other[key]`. -/
def Itemdict.isub (d other : Itemdict) : Itemdict :=
  other.foldl (fun a kv => a.setKey kv.1 (a.getD kv.1 - kv.2)) d

/-- `Itemdict.__le__`: `self ≤ other` iff every key of `self` has
`self[key] ≤ other.get(key, 0)`. -/
def Itemdict.le (d other : Itemdict) : Bool :=
  d.all (fun kv => kv.2 ≤ other.getD kv.1)

/-! ## Boxtype (`base.py` lines 4-30) -/

/-- A box type; `volume` is always set to `l*w*h` by the constructor, so it is
kept as a derived function. -/
structure Boxtype where
  id : Nat
  l : Int
  w : Int
  h : Int
  rot_l : Bool
  rot_w : Bool
  rot_h : Bool
  weight : Int
deriving DecidableEq, Repr

/-- `Boxtype.volume = l*w*h`. -/
def Boxtype.volume (b : Boxtype) : Int := b.l * b.w * b.h

/-! ## Aabb (`base.py`; the second, live definition at lines 251-357, plus the
`subtract` method that only the first, shadowed definition at 185-208 has) -/

/-- Integer axis-aligned bounding box. -/
structure Aabb where
  xmin : Int
  xmax : Int
  ymin : Int
  ymax : Int
  zmin : Int
  zmax : Int
deriving DecidableEq, Repr, Inhabited

namespace Aabb

/-- Derived length `xmax - xmin`. -/
def l (a : Aabb) : Int := a.xmax - a.xmin

/-- Derived width `ymax - ymin`. -/
def w (a : Aabb) : Int := a.ymax - a.ymin

/-- Derived height `zmax - zmin`. -/
def h (a : Aabb) : Int := a.zmax - a.zmin

/-- Derived volume `l * w * h`. -/
def volume (a : Aabb) : Int := a.l * a.w * a.h

/-- The constructor's validity check: `ValueError` unless
`xmin < xmax ∧ ymin < ymax ∧ zmin < zmax`. -/
def valid (a : Aabb) : Prop :=
  a.xmin < a.xmax ∧ a.ymin < a.ymax ∧ a.zmin < a.zmax

instance : DecidablePred valid := fun a => by unfold valid; infer_instance

/-- `Aabb.strict_intersects`. -/
def strict_intersects (a b : Aabb) : Prop :=
  a.xmin < b.xmax ∧ a.xmax > b.xmin ∧
  a.ymin < b.ymax ∧ a.ymax > b.ymin ∧
  a.zmin < b.zmax ∧ a.zmax > b.zmin

instance : ∀ a b, Decidable (strict_intersects a b) := fun a b => by
  unfold strict_intersects; infer_instance

/-- `Aabb.intersects` (touch allowed). -/
def intersects (a b : Aabb) : Prop :=
  a.xmin ≤ b.xmax ∧ a.xmax ≥ b.xmin ∧
  a.ymin ≤ b.ymax ∧ a.ymax ≥ b.ymin ∧
  a.zmin ≤ b.zmax ∧ a.zmax ≥ b.zmin

instance : ∀ a b, Decidable (intersects a b) := fun a b => by
  unfold intersects; infer_instance

/-- `Aabb.__ge__`: containment of `b` in `a`. -/
def ge (a b : Aabb) : Prop :=
  a.xmin ≤ b.xmin ∧ a.xmax ≥ b.xmax ∧
  a.ymin ≤ b.ymin ∧ a.ymax ≥ b.ymax ∧
  a.zmin ≤ b.zmin ∧ a.zmax ≥ b.zmax

instance : ∀ a b, Decidable (ge a b) := fun a b => by
  unfold ge; infer_instance

/-- `Aabb.can_contain`: dimension-wise fit. -/
def can_contain (a b : Aabb) : Prop := a.l ≥ b.l ∧ a.w ≥ b.w ∧ a.h ≥ b.h

/-- `Aabb.subtract` (lines 185-208): up to six axis slabs of `self` outside
`aabb`, in source order +x, +y, +z, −x, −y, −z. -/
def subtract (self aabb : Aabb) : List Aabb :=
  (if aabb.xmax < self.xmax then
    [⟨aabb.xmax, self.xmax, self.ymin, self.ymax, self.zmin, self.zmax⟩] else []) ++
  (if aabb.ymax < self.ymax then
    [⟨self.xmin, self.xmax, aabb.ymax, self.ymax, self.zmin, self.zmax⟩] else []) ++
  (if aabb.zmax < self.zmax then
    [⟨self.xmin, self.xmax, self.ymin, self.ymax, aabb.zmax, self.zmax⟩] else []) ++
  (if aabb.xmin > self.xmin then
    [⟨self.xmin, aabb.xmin, self.ymin, self.ymax, self.zmin, self.zmax⟩] else []) ++
  (if aabb.ymin > self.ymin then
    [⟨self.xmin, self.xmax, self.ymin, aabb.ymin, self.zmin, self.zmax⟩] else []) ++
  (if aabb.zmin > self.zmin then
    [⟨self.xmin, self.xmax, self.ymin, self.ymax, self.zmin, aabb.zmin⟩] else [])

/-- Membership of an integer grid point in the half-open box
`[xmin, xmax) × [ymin, ymax) × [zmin, zmax)`. -/
def containsPt (a : Aabb) (p : Int × Int × Int) : Prop :=
  a.xmin ≤ p.1 ∧ p.1 < a.xmax ∧
  a.ymin ≤ p.2.1 ∧ p.2.1 < a.ymax ∧
  a.zmin ≤ p.2.2 ∧ p.2.2 < a.zmax

instance : ∀ a p, Decidable (containsPt a p) := fun a p => by
  unfold containsPt; infer_instance

end Aabb

/-! ## Space (`base.py` lines 361-452)

`Space.filling` and `Space.vertical_stability` are class-level knobs; they are
threaded as an explicit configuration.  The `container_block` back-reference is
read only for its dims `l, w, h`, so it is stored as the dims triple. -/

/-- The `Space.filling` class knob. -/
inductive Filling where
  | origin
  | bottomUp
  | free
deriving DecidableEq, Repr

/-- Process-wide `Space` configuration: `filling` and `vertical_stability`. -/
structure Config where
  filling : Filling
  vertical_stability : Bool
deriving DecidableEq, Repr

/-- A free-space cuboid with its container reference (as dims), chosen corner
and priority (`manhattan`). -/
structure Space extends Aabb where
  containerDims : Int × Int × Int
  corner_point : Int × Int × Int
  manhattan : Int
deriving DecidableEq, Repr, Inhabited

/-- `Space.__init__` (lines 375-416): computes `corner_point` and `manhattan`
from the filling policy and the container block's dims `(L, W, H)`. -/
def mkSpace (cfg : Config) (xmin xmax ymin ymax zmin zmax : Int)
    (cd : Int × Int × Int) : Space :=
  let L := cd.1; let W := cd.2.1; let H := cd.2.2
  let xdist := xmin
  let ydist := ymin
  let zdist := if cfg.filling = Filling.bottomUp then 1000 * zmin else zmin
  let xdist := if L - xmax < xmin ∧ cfg.filling ≠ Filling.origin then L - xmax else xdist
  let cx := if L - xmax < xmin ∧ cfg.filling ≠ Filling.origin then xmax else xmin
  let ydist := if W - ymax < ymin ∧ cfg.filling ≠ Filling.origin then W - ymax else ydist
  let cy := if W - ymax < ymin ∧ cfg.filling ≠ Filling.origin then ymax else ymin
  let zdist := if H - zmax < zmin ∧ cfg.filling = Filling.free then H - zmax else zdist
  let cz := if H - zmax < zmin ∧ cfg.filling = Filling.free then zmax else zmin
  { xmin := xmin, xmax := xmax, ymin := ymin, ymax := ymax, zmin := zmin, zmax := zmax,
    containerDims := cd, corner_point := (cx, cy, cz),
    manhattan := xdist + ydist + zdist }

/-- `Space.__init__` including the inherited `Aabb` validity check:
`none` models the raised `ValueError`. -/
def mkSpaceChecked (cfg : Config) (xmin xmax ymin ymax zmin zmax : Int)
    (cd : Int × Int × Int) : Option Space :=
  if xmax ≤ xmin ∨ ymax ≤ ymin ∨ zmax ≤ zmin then none
  else some (mkSpace cfg xmin xmax ymin ymax zmin zmax cd)

/-- `Space.subtract(aabb, container_block)` (lines 418-452): like
`Aabb.subtract` except that when vertical stability is on, the +z slab is
restricted to the placed box's xy footprint. -/
def Space.subtract (cfg : Config) (self : Space) (aabb : Aabb)
    (cd : Int × Int × Int) : List Space :=
  (if aabb.xmax < self.xmax then
    [mkSpace cfg aabb.xmax self.xmax self.ymin self.ymax self.zmin self.zmax cd] else []) ++
  (if aabb.ymax < self.ymax then
    [mkSpace cfg self.xmin self.xmax aabb.ymax self.ymax self.zmin self.zmax cd] else []) ++
  (if aabb.zmax < self.zmax then
    (if cfg.vertical_stability = false then
      [mkSpace cfg self.xmin self.xmax self.ymin self.ymax aabb.zmax self.zmax cd]
     else
      [mkSpace cfg aabb.xmin aabb.xmax aabb.ymin aabb.ymax aabb.zmax self.zmax cd]) else []) ++
  (if aabb.xmin > self.xmin then
    [mkSpace cfg self.xmin aabb.xmin self.ymin self.ymax self.zmin self.zmax cd] else []) ++
  (if aabb.ymin > self.ymin then
    [mkSpace cfg self.xmin self.xmax self.ymin aabb.ymin self.zmin self.zmax cd] else []) ++
  (if aabb.zmin > self.zmin then
    [mkSpace cfg self.xmin self.xmax self.ymin self.ymax self.zmin aabb.zmin cd] else [])

/-! ## FreeSpace (`base.py` lines 456-557), modelled as the list of spaces. -/

/-- Stable insertion of `x` into a list sorted by volume descending: `x` goes
after existing elements of volume ≥ its own (the behaviour of Python's stable
`sort(key=volume, reverse=True)`). -/
def insertByVolDesc (x : Space) : List Space → List Space
  | [] => [x]
  | y :: ys => if y.volume ≥ x.volume then y :: insertByVolDesc x ys else x :: y :: ys

/-- Stable sort by volume descending: insert the elements left to right, each
going after the already-placed elements of volume ≥ its own. -/
def sortByVolDesc (l : List Space) : List Space :=
  l.foldl (fun acc x => insertByVolDesc x acc) []

/-- The index-marking double loop of `remove_nonmaximal_spaces` (lines
487-492): `j` joins `to_remove` when some `i < j` not skipped has
`arr[i] ⊇ arr[j]`; an already-removed `j` is skipped, an already-removed `i`
is not. -/
def nonmaxRemovedIdxs (arr : List Space) : List Nat :=
  (List.range arr.length).foldl (fun rem i =>
    (List.range arr.length).foldl (fun rem j =>
      if i < j ∧ ¬ rem.contains j ∧
          Aabb.ge (arr.getD i default).toAabb (arr.getD j default).toAabb
      then j :: rem else rem) rem) []

/-- `FreeSpace.remove_nonmaximal_spaces` (lines 476-495): sort by volume
descending, then drop spaces contained in an earlier one. -/
def remove_nonmaximal_spaces (l : List Space) : List Space :=
  let arr := sortByVolDesc l
  let rem := nonmaxRemovedIdxs arr
  (arr.enum.filterMap fun iv => if rem.contains iv.1 then none else some iv.2)

/-- `FreeSpace.crop(aabb, container_block)` (lines 497-521). -/
def crop (cfg : Config) (spaces : List Space) (aabb : Aabb)
    (cd : Int × Int × Int) : List Space :=
  let new_spaces := spaces.foldr (fun s acc =>
    if Aabb.intersects s.toAabb aabb then
      (if Aabb.strict_intersects s.toAabb aabb then Space.subtract cfg s aabb cd
       else [s]) ++ acc
    else acc) []
  let kept := spaces.filter (fun s => !(decide (Aabb.intersects s.toAabb aabb)))
  kept ++ remove_nonmaximal_spaces new_spaces

/-! ## Block (`base.py` lines 564-724) -/

/-- Mutable block state (the opaque `tokens` list, never read by these
operations, is not carried). -/
structure Block where
  l : Int
  w : Int
  h : Int
  occupied_volume : Int
  weight : Int
  volume : Int
  items : Itemdict
  aabbs : List Aabb
  free_space : List Space
deriving DecidableEq, Repr, Inhabited

/-- `Block.__init__` in the custom-dimensions (empty container) branch (lines
632-640): `free_space = FreeSpace(Space(0, l, 0, w, 0, h, self))`; `none`
models the `ValueError` raised by the `Space` constructor. -/
def mkEmptyBlock (cfg : Config) (l w h : Int) : Option Block :=
  (mkSpaceChecked cfg 0 l 0 w 0 h (l, w, h)).map fun sp =>
    { l := l, w := w, h := h, volume := l * w * h, occupied_volume := 0,
      weight := 0, items := [], aabbs := [], free_space := [sp] }

/-- `Block._initialize_from_boxtype` helper: the block dim taken by rotation
character `c` (positionally one of the sequential `if rot[i] == _` tests;
at most one fires, a non-matching character leaves the dim at 0). -/
def dimOf (bt : Boxtype) (c : Char) : Int :=
  if c = 'w' then bt.w else if c = 'l' then bt.l else if c = 'h' then bt.h else 0

/-- `Block._initialize_from_boxtype(boxtype, rot)` (lines 642-660) together
with the `boxtype` branch of `Block.__init__` (`free_space = FreeSpace()`,
i.e. empty). -/
def initFromBoxtype (bt : Boxtype) (rot : Char × Char × Char) : Block :=
  { l := dimOf bt rot.1, w := dimOf bt rot.2.1, h := dimOf bt rot.2.2,
    weight := bt.weight, occupied_volume := bt.volume, volume := bt.volume,
    items := [(bt.id, 1)], aabbs := [], free_space := [] }

/-- `Block.add_block(block, x, y, z)` (lines 662-675).  Note that
`free_space.crop` receives `block` — the placed child — as its
`container_block` argument, so the emitted spaces carry the child's dims. -/
def Block.addBlock (cfg : Config) (self block : Block) (x y z : Int) : Block :=
  let aabb : Aabb := ⟨x, x + block.l, y, y + block.w, z, z + block.h⟩
  { self with
    aabbs := self.aabbs ++ [aabb],
    occupied_volume := self.occupied_volume + block.occupied_volume,
    weight := self.weight + block.weight,
    items := self.items.iadd block.items,
    free_space := crop cfg self.free_space aabb (block.l, block.w, block.h) }

/-- The axis dispatch of `Block.join` (lines 689-702): new `(l, w, h)` for a
recognised axis, `none` for an unknown axis. -/
def joinDims (self block : Block) (dim : String) : Option (Int × Int × Int) :=
  if dim = "x" then some (self.l + block.l, max self.w block.w, max self.h block.h)
  else if dim = "y" then some (max self.l block.l, self.w + block.w, max self.h block.h)
  else if dim = "z" then some (max self.l block.l, max self.w block.w, self.h + block.h)
  else none

/-- `Block.join(block, dim, min_fr)` (lines 677-713): returns the Python
return value together with the (possibly mutated) `self`; `none` models the
`ZeroDivisionError` when the new enclosing volume is 0. -/
def Block.join (self block : Block) (dim : String) (min_fr : ℚ) :
    Option (Bool × Block) :=
  match joinDims self block dim with
  | none => some (false, self)
  | some (l, w, h) =>
      let new_volume := l * w * h
      if new_volume = 0 then none
      else if ((self.occupied_volume + block.occupied_volume : ℚ) / (new_volume : ℚ)) < min_fr
      then some (false, self)
      else some (true,
        { self with
          l := l, w := w, h := h, volume := new_volume,
          weight := self.weight + block.weight,
          occupied_volume := self.occupied_volume + block.occupied_volume,
          items := self.items.iadd block.items })

/-- `Block.is_constructible(items)` (lines 715-719): iterates the block's own
items and indexes `items[item]` directly, so a key missing from the pool
raises `KeyError` (modelled by `none`). -/
def is_constructible (selfItems pool : Itemdict) : Option Bool :=
  match selfItems with
  | [] => some true
  | (k, v) :: rest =>
      match pool.find? k with
      | none => none
      | some pv => if pv < v then some false else is_constructible rest pool

/-! ## BlockList (`base.py` lines 728-841): simple-block generation. -/

/-- `BlockList.generate_simple_blocks(items)` (lines 748-764), iterating the
item keys in order. -/
def generate_simple_blocks (items : List Boxtype) : List Block :=
  items.foldr (fun item acc =>
    ([initFromBoxtype item ('l', 'w', 'h')] ++
     (if item.rot_l then
        [initFromBoxtype item ('w', 'h', 'l'), initFromBoxtype item ('h', 'w', 'l')] else []) ++
     (if item.rot_w then
        [initFromBoxtype item ('l', 'h', 'w'), initFromBoxtype item ('h', 'l', 'w')] else []) ++
     (if item.rot_h then
        [initFromBoxtype item ('w', 'l', 'h')] else [])) ++ acc) []

/-! ## Derived operation: a finite sequence of `Block.add` calls -/

/-- Fold a sequence of `add_block(child, x, y, z)` calls over a container. -/
def addAll (cfg : Config) (c : Block) (ps : List (Block × Int × Int × Int)) : Block :=
  ps.foldl (fun s p => Block.addBlock cfg s p.1 p.2.1 p.2.2.1 p.2.2.2) c

/-- Total value that the keys equal to `k` in `b` contribute (proof helper). -/
def sumAt (b : Itemdict) (k : Nat) : Int :=
  (b.filter (fun kv => kv.1 == k)).foldr (fun kv s => kv.2 + s) 0

/-! ## Concrete instances used by the example-level theorems -/

/-- The default configuration: `filling = "origin"`, `vertical_stability = True`. -/
def cfgOrigin : Config := ⟨Filling.origin, true⟩

/-- The example `Aabb(0..10, 0..10, 0..10)`. -/
def aabbA : Aabb := ⟨0, 10, 0, 10, 0, 10⟩

/-- The example `Aabb(2..8, 2..8, 2..8)`. -/
def aabbB : Aabb := ⟨2, 8, 2, 8, 2, 8⟩

/-- A box `Aabb(5..10, 5..10, 5..10)`, used with a disjoint subtrahend. -/
def aabbD1 : Aabb := ⟨5, 10, 5, 10, 5, 10⟩

/-- A box `Aabb(0..1, 0..1, 0..1)` disjoint from `aabbD1`. -/
def aabbD2 : Aabb := ⟨0, 1, 0, 1, 0, 1⟩

/-- A 10×10×10 box type with all rotations. -/
def boxCube10 : Boxtype := ⟨0, 10, 10, 10, true, true, true, 1⟩

/-- A leaf block of `boxCube10` in orientation `lwh`. -/
def child10 : Block := initFromBoxtype boxCube10 ('l', 'w', 'h')

/-- A 20×20×20 empty container block. -/
def cont20 : Block := (mkEmptyBlock cfgOrigin 20 20 20).getD default

/-- The container after `add_block(child10, 0, 0, 0)`. -/
def cont20' : Block := Block.addBlock cfgOrigin cont20 child10 0 0 0

/-- A 5×5×4 block with `occupied_volume = 100`. -/
def blockA5 : Block := ⟨5, 5, 4, 100, 1, 100, [(1, 1)], [], []⟩

/-- A 5×6×4 block with `occupied_volume = 100`. -/
def blockB5 : Block := ⟨5, 6, 4, 100, 1, 120, [(2, 1)], [], []⟩

/-- The result of joining `blockA5` and `blockB5` along x with `min_fr = 1/2`:
a 10×6×4 aggregate with `occupied_volume = 200 < 240 = volume`. -/
def joinedAB : Block := ⟨10, 6, 4, 200, 2, 240, [(1, 1), (2, 1)], [], []⟩

/-- The result of joining `blockA5` with itself along x (`min_fr = 1/2`):
a 10×5×4 aggregate, completely filled. -/
def joinedAA : Block := ⟨10, 5, 4, 200, 2, 200, [(1, 2)], [], []⟩

/-- The 20×20×20 container after placing the joined block `joinedAB` at the
origin. -/
def contC4 : Block := Block.addBlock cfgOrigin cont20 joinedAB 0 0 0

/-- A 3×4×5 box type with all rotations, for the simple-block enumeration. -/
def btAll : Boxtype := ⟨7, 3, 4, 5, true, true, true, 1⟩

/-! ## Theorems -/

theorem getD_setKey (d : Itemdict) (k : Nat) (v : Int) (k' : Nat) :
    (d.setKey k v).getD k' = if k = k' then v else d.getD k' := by
  induction d with
  | nil =>
      simp [Itemdict.setKey, Itemdict.getD]
  | cons kv rest ih =>
      obtain ⟨k0, v0⟩ := kv
      simp only [Itemdict.setKey]
      by_cases h0 : k0 = k
      · subst h0
        simp only [if_pos rfl, Itemdict.getD]
        by_cases h1 : k0 = k' <;> simp [h1]
      · simp only [if_neg h0, Itemdict.getD]
        by_cases h1 : k0 = k'
        · subst h1
          have : ¬ k = k0 := fun h => h0 h.symm
          simp [this]
        · simp [h1, ih]

theorem getD_iadd (b : Itemdict) : ∀ (a : Itemdict) (k : Nat),
    (a.iadd b).getD k = a.getD k + sumAt b k := by
  induction b with
  | nil => intro a k; simp [Itemdict.iadd, sumAt]
  | cons kv rest ih =>
      intro a k
      obtain ⟨k0, v0⟩ := kv
      have hstep : a.iadd ((k0, v0) :: rest) =
          (a.setKey k0 (a.getD k0 + v0)).iadd rest := rfl
      rw [hstep, ih]
      by_cases h : k0 = k
      · subst h
        rw [getD_setKey]
        simp [sumAt, Itemdict.getD]
        ring
      · rw [getD_setKey]
        simp [h, sumAt]

theorem getD_isub (b : Itemdict) : ∀ (a : Itemdict) (k : Nat),
    (a.isub b).getD k = a.getD k - sumAt b k := by
  induction b with
  | nil => intro a k; simp [Itemdict.isub, sumAt]
  | cons kv rest ih =>
      intro a k
      obtain ⟨k0, v0⟩ := kv
      have hstep : a.isub ((k0, v0) :: rest) =
          (a.setKey k0 (a.getD k0 - v0)).isub rest := rfl
      rw [hstep, ih]
      by_cases h : k0 = k
      · subst h
        rw [getD_setKey]
        simp [sumAt, Itemdict.getD]
        ring
      · rw [getD_setKey]
        simp [h, sumAt]

/-- C9: `A += B` then `A -= B` restores every count of `A`:
for every key `k`, the resulting `get(k, 0)` equals the original one. -/
theorem iadd_isub_roundtrip (a b : Itemdict) (k : Nat) :
    ((a.iadd b).isub b).getD k = a.getD k := by
  rw [getD_isub, getD_iadd]
  ring

/-- C3: `Block.is_constructible` indexes the pool with `items[item]`, so a box
type present in the block's items but absent from the pool raises `KeyError`
(modelled `none`) instead of returning `False`; `Itemdict.__le__` on the same
input returns `False`, witnessing that the claimed "no raise, result =
(self.items ≤ items)" behaviour does not hold on the code. -/
theorem is_constructible_keyerror_on_missing_key :
    is_constructible [(0, 1)] [] = none ∧
    Itemdict.le [(0, 1)] [] = false ∧
    is_constructible [(0, 1)] [] ≠ some (Itemdict.le [(0, 1)] []) := by
  refine ⟨rfl, rfl, by decide⟩

/-- C10: constructing an empty-container `Block` raises `ValueError` exactly
when `l ≤ 0 ∨ w ≤ 0 ∨ h ≤ 0` (so in particular for the all-default call with
`l = w = h = 0`), because the initial interior `Space(0, l, 0, w, 0, h)` fails
the AABB validation; for positive dims it succeeds and the free space is
exactly that one `Space`. -/
theorem mkEmptyBlock_valueerror_iff (cfg : Config) (l w h : Int) :
    (mkEmptyBlock cfg l w h = none ↔ l ≤ 0 ∨ w ≤ 0 ∨ h ≤ 0) ∧
    (0 < l → 0 < w → 0 < h →
      ∃ b, mkEmptyBlock cfg l w h = some b ∧
        b.free_space = [mkSpace cfg 0 l 0 w 0 h (l, w, h)]) := by
  unfold mkEmptyBlock mkSpaceChecked
  constructor
  · split
    · simp_all
    · simp_all
  · intro hl hw hh
    have : ¬ (l ≤ 0 ∨ w ≤ 0 ∨ h ≤ 0) := by omega
    simp [this]

/-- C5: `Block.join` with an unknown axis, or with a well-defined fill ratio
below `min_fr`, returns false and leaves the block unchanged. -/
theorem join_gate_returns_false (a b : Block) (dim : String) (f : ℚ) :
    (dim ≠ "x" → dim ≠ "y" → dim ≠ "z" → Block.join a b dim f = some (false, a)) ∧
    (∀ l w h : Int, joinDims a b dim = some (l, w, h) → l * w * h ≠ 0 →
      ((a.occupied_volume + b.occupied_volume : ℚ) / ((l * w * h : Int) : ℚ) < f →
        Block.join a b dim f = some (false, a))) := by
  constructor
  · intro hx hy hz
    unfold Block.join joinDims
    simp [hx, hy, hz]
  · intro l w h hj hv hr
    unfold Block.join
    rw [hj]
    push_cast at hr
    simp [hv, hr]

theorem join_some_reduce (a b : Block) (dim : String) (f : ℚ) (l w h : Int)
    (hd : joinDims a b dim = some (l, w, h)) :
    Block.join a b dim f =
      (if l * w * h = 0 then none
       else if ((a.occupied_volume + b.occupied_volume : ℚ) / ((l * w * h : Int) : ℚ) < f)
       then some (false, a)
       else some (true,
        { a with
          l := l, w := w, h := h, volume := l * w * h,
          weight := a.weight + b.weight,
          occupied_volume := a.occupied_volume + b.occupied_volume,
          items := a.items.iadd b.items })) := by
  unfold Block.join
  rw [hd]

/-- C6: when `Block.join` returns true, the new dim along the stacking axis is
the sum of the inputs' dims and the other two are their max; hence each new
dim dominates the max of the inputs and (for well-formed nonnegative blocks)
the new volume dominates the old one. -/
theorem join_monotone (a b : Block) (dim : String) (f : ℚ) (c : Block)
    (hj : Block.join a b dim f = some (true, c))
    (hal : 0 ≤ a.l) (haw : 0 ≤ a.w) (hah : 0 ≤ a.h)
    (hbl : 0 ≤ b.l) (hbw : 0 ≤ b.w) (hbh : 0 ≤ b.h)
    (hv : a.volume = a.l * a.w * a.h) :
    ((dim = "x" ∧ c.l = a.l + b.l ∧ c.w = max a.w b.w ∧ c.h = max a.h b.h) ∨
     (dim = "y" ∧ c.l = max a.l b.l ∧ c.w = a.w + b.w ∧ c.h = max a.h b.h) ∨
     (dim = "z" ∧ c.l = max a.l b.l ∧ c.w = max a.w b.w ∧ c.h = a.h + b.h)) ∧
    max a.l b.l ≤ c.l ∧ max a.w b.w ≤ c.w ∧ max a.h b.h ≤ c.h ∧
    a.volume ≤ c.volume := by
  have key : ∀ L W H : Int, c.volume = L * W * H →
      a.l ≤ L → a.w ≤ W → a.h ≤ H → a.volume ≤ c.volume := by
    intro L W H hvol h1 h2 h3
    rw [hv, hvol]
    have hl0 : (0 : Int) ≤ L := le_trans hal h1
    have hw0 : (0 : Int) ≤ W := le_trans haw h2
    calc a.l * a.w * a.h
        ≤ L * a.w * a.h :=
          mul_le_mul_of_nonneg_right (mul_le_mul_of_nonneg_right h1 haw) hah
      _ ≤ L * W * a.h :=
          mul_le_mul_of_nonneg_right (mul_le_mul_of_nonneg_left h2 hl0) hah
      _ ≤ L * W * H := mul_le_mul_of_nonneg_left h3 (mul_nonneg hl0 hw0)
  rcases hd : joinDims a b dim with - | ⟨⟨l, w, h⟩⟩
  · unfold Block.join at hj
    rw [hd] at hj
    exact absurd hj (by simp)
  · rw [join_some_reduce a b dim f l w h hd] at hj
    split_ifs at hj with h0 h1
    · exact absurd hj (by simp)
    rw [Option.some_inj, Prod.ext_iff] at hj
    obtain ⟨-, hc⟩ := hj
    subst hc
    unfold joinDims at hd
    split_ifs at hd with hx hy hz
    · rw [Option.some_inj, Prod.ext_iff, Prod.ext_iff] at hd
      obtain ⟨h1', h2', h3'⟩ := hd
      subst h1'; subst h2'; subst h3'
      refine ⟨Or.inl ⟨hx, rfl, rfl, rfl⟩,
        by show max a.l b.l ≤ a.l + b.l; omega,
        by show max a.w b.w ≤ max a.w b.w; omega,
        by show max a.h b.h ≤ max a.h b.h; omega, ?_⟩
      exact key (a.l + b.l) (max a.w b.w) (max a.h b.h) rfl (by omega)
        (le_max_left _ _) (le_max_left _ _)
    · rw [Option.some_inj, Prod.ext_iff, Prod.ext_iff] at hd
      obtain ⟨h1', h2', h3'⟩ := hd
      subst h1'; subst h2'; subst h3'
      refine ⟨Or.inr (Or.inl ⟨hy, rfl, rfl, rfl⟩),
        by show max a.l b.l ≤ max a.l b.l; omega,
        by show max a.w b.w ≤ a.w + b.w; omega,
        by show max a.h b.h ≤ max a.h b.h; omega, ?_⟩
      exact key (max a.l b.l) (a.w + b.w) (max a.h b.h) rfl (le_max_left _ _)
        (by omega) (le_max_left _ _)
    · rw [Option.some_inj, Prod.ext_iff, Prod.ext_iff] at hd
      obtain ⟨h1', h2', h3'⟩ := hd
      subst h1'; subst h2'; subst h3'
      refine ⟨Or.inr (Or.inr ⟨hz, rfl, rfl, rfl⟩),
        by show max a.l b.l ≤ max a.l b.l; omega,
        by show max a.w b.w ≤ max a.w b.w; omega,
        by show max a.h b.h ≤ a.h + b.h; omega, ?_⟩
      exact key (max a.l b.l) (max a.w b.w) (a.h + b.h) rfl (le_max_left _ _)
        (le_max_left _ _) (by omega)

/-- Witness for C5: an unknown axis `"q"`, and the spec's own 5×5×4 / 5×6×4
example whose fill ratio `200/240` is below the default gate `98/100`; both
return false with the block unchanged. -/
theorem join_gate_returns_false_witness :
    Block.join blockA5 blockB5 "q" (98/100) = some (false, blockA5) ∧
    Block.join blockA5 blockB5 "x" (98/100) = some (false, blockA5) := by
  constructor
  · exact (join_gate_returns_false blockA5 blockB5 "q" (98/100)).1
      (by decide) (by decide) (by decide)
  · exact (join_gate_returns_false blockA5 blockB5 "x" (98/100)).2 10 6 4
      (by decide) (by decide) (by norm_num [blockA5, blockB5])

/-- Witness for C6: joining two 5×5×4 blocks along x succeeds (fill ratio 1)
and the resulting dims and volume dominate the inputs. -/
theorem join_monotone_witness :
    max blockA5.l blockA5.l ≤ joinedAA.l ∧ max blockA5.w blockA5.w ≤ joinedAA.w ∧
    max blockA5.h blockA5.h ≤ joinedAA.h ∧ blockA5.volume ≤ joinedAA.volume :=
  (join_monotone blockA5 blockA5 "x" (1/2) joinedAA
    (by
      rw [join_some_reduce blockA5 blockA5 "x" (1/2) 10 5 4 (by decide)]
      norm_num [blockA5, joinedAA]
      decide)
    (by decide) (by decide) (by decide) (by decide) (by decide) (by decide)
    (by decide)).2

/-- Witness for C10: a 20×20×20 container is built successfully with exactly
one interior free space. -/
theorem mkEmptyBlock_valueerror_iff_witness :
    ∃ b, mkEmptyBlock cfgOrigin 20 20 20 = some b ∧
      b.free_space = [mkSpace cfgOrigin 0 20 0 20 0 20 (20, 20, 20)] :=
  (mkEmptyBlock_valueerror_iff cfgOrigin 20 20 20).2 (by decide) (by decide) (by decide)

theorem addAll_occupied (cfg : Config) (ps : List (Block × Int × Int × Int)) :
    ∀ s : Block, (addAll cfg s ps).occupied_volume =
      s.occupied_volume + (ps.map (fun p => p.1.occupied_volume)).sum := by
  induction ps with
  | nil => intro s; simp [addAll]
  | cons p rest ih =>
      intro s
      rw [show addAll cfg s (p :: rest) =
        addAll cfg (Block.addBlock cfg s p.1 p.2.1 p.2.2.1 p.2.2.2) rest from rfl, ih]
      simp [Block.addBlock]
      ring

theorem addAll_aabb_volumes (cfg : Config) (ps : List (Block × Int × Int × Int)) :
    ∀ s : Block, ((addAll cfg s ps).aabbs.map Aabb.volume).sum =
      (s.aabbs.map Aabb.volume).sum + (ps.map (fun p => p.1.l * p.1.w * p.1.h)).sum := by
  induction ps with
  | nil => intro s; simp [addAll]
  | cons p rest ih =>
      intro s
      rw [show addAll cfg s (p :: rest) =
        addAll cfg (Block.addBlock cfg s p.1 p.2.1 p.2.2.1 p.2.2.2) rest from rfl, ih]
      simp [Block.addBlock, Aabb.volume, Aabb.l, Aabb.w, Aabb.h]
      ring

/-- C4 (amended): over any finite sequence of `Block.add` calls on an empty
container, `occupied_volume` equals the sum of the placed children's
`occupied_volume` fields, while the placed AABBs' volumes sum to the children's
enclosing-dimension products — the two agree only when every child is
completely filled. -/
theorem container_occupied_eq_sum_children (cfg : Config) (L W H : Int)
    (c0 : Block) (hc : mkEmptyBlock cfg L W H = some c0)
    (ps : List (Block × Int × Int × Int))
    (_hpos : ∀ p ∈ ps, 0 < p.1.l ∧ 0 < p.1.w ∧ 0 < p.1.h) :
    (addAll cfg c0 ps).occupied_volume =
      (ps.map (fun p => p.1.occupied_volume)).sum ∧
    ((addAll cfg c0 ps).aabbs.map Aabb.volume).sum =
      (ps.map (fun p => p.1.l * p.1.w * p.1.h)).sum := by
  have h0 : c0.occupied_volume = 0 ∧ c0.aabbs = [] := by
    unfold mkEmptyBlock mkSpaceChecked at hc
    split at hc
    · simp at hc
    · rw [Option.map_some'] at hc
      have hb := Option.some_inj.mp hc
      subst hb
      exact ⟨rfl, rfl⟩
  obtain ⟨ho, ha⟩ := h0
  constructor
  · rw [addAll_occupied, ho]; ring
  · rw [addAll_aabb_volumes, ha]; simp

/-- Witness for C4 (amended): placing the joined 10×6×4 block into the
20×20×20 container. -/
theorem container_occupied_eq_sum_children_witness :
    (addAll cfgOrigin cont20 [(joinedAB, 0, 0, 0)]).occupied_volume =
      ([(joinedAB, (0 : Int), (0 : Int), (0 : Int))].map
        (fun p => p.1.occupied_volume)).sum ∧
    ((addAll cfgOrigin cont20 [(joinedAB, 0, 0, 0)]).aabbs.map Aabb.volume).sum =
      ([(joinedAB, (0 : Int), (0 : Int), (0 : Int))].map
        (fun p => p.1.l * p.1.w * p.1.h)).sum :=
  container_occupied_eq_sum_children cfgOrigin 20 20 20 cont20 (by decide)
    [(joinedAB, 0, 0, 0)] (by decide)

/-- Counterexample to C4 as stated: `joinedAB` is produced by a successful
`join` with `occupied_volume = 200` but AABB volume `240`; after placing it,
the container's `occupied_volume` (200) differs from the sum of the placed
children's AABB volumes (240). -/
theorem container_occupied_neq_aabb_volumes_cex :
    Block.join blockA5 blockB5 "x" (1/2) = some (true, joinedAB) ∧
    mkEmptyBlock cfgOrigin 20 20 20 = some cont20 ∧
    contC4 = Block.addBlock cfgOrigin cont20 joinedAB 0 0 0 ∧
    contC4.occupied_volume = 200 ∧
    (contC4.aabbs.map Aabb.volume).sum = 240 ∧
    contC4.occupied_volume ≠ (contC4.aabbs.map Aabb.volume).sum := by
  refine ⟨?_, by decide, rfl, by decide, by decide, by decide⟩
  rw [join_some_reduce blockA5 blockB5 "x" (1/2) 10 6 4 (by decide)]
  norm_num [blockA5, blockB5, joinedAB]
  decide

theorem perm_six (a b c : Int) :
    List.Perm
      [(a, b, c), (b, c, a), (c, b, a), (a, c, b), (c, a, b), (b, a, c)]
      [(a, b, c), (a, c, b), (b, a, c), (b, c, a), (c, a, b), (c, b, a)] := by
  refine List.Perm.cons _ ?_
  have s1 : List.Perm [(b, c, a), (c, b, a), (a, c, b), (c, a, b), (b, a, c)]
      ((a, c, b) :: [(b, c, a), (c, b, a), (c, a, b), (b, a, c)]) :=
    @List.perm_middle _ (a, c, b) [(b, c, a), (c, b, a)] [(c, a, b), (b, a, c)]
  have s2 : List.Perm [(b, c, a), (c, b, a), (c, a, b), (b, a, c)]
      ((b, a, c) :: [(b, c, a), (c, b, a), (c, a, b)]) :=
    @List.perm_middle _ (b, a, c) [(b, c, a), (c, b, a), (c, a, b)] []
  have s4 : List.Perm [(c, b, a), (c, a, b)] [(c, a, b), (c, b, a)] :=
    List.Perm.swap (c, a, b) (c, b, a) []
  exact s1.trans (List.Perm.cons _ (s2.trans
    (List.Perm.cons _ (List.Perm.cons _ s4))))

/-- C8: a single box type with all three rotation flags yields exactly six
simple blocks whose `(l, w, h)` tuples form, as a multiset, the six
permutations of the box's dimensions. -/
theorem generate_simple_blocks_all_rotations (bt : Boxtype)
    (hl : bt.rot_l = true) (hw : bt.rot_w = true) (hh : bt.rot_h = true) :
    (generate_simple_blocks [bt]).length = 6 ∧
    ((generate_simple_blocks [bt]).map (fun b => (b.l, b.w, b.h)) :
        Multiset (Int × Int × Int)) =
      ↑[(bt.l, bt.w, bt.h), (bt.l, bt.h, bt.w), (bt.w, bt.l, bt.h),
         (bt.w, bt.h, bt.l), (bt.h, bt.l, bt.w), (bt.h, bt.w, bt.l)] := by
  have hgen : (generate_simple_blocks [bt]).map (fun b => (b.l, b.w, b.h)) =
      [(bt.l, bt.w, bt.h), (bt.w, bt.h, bt.l), (bt.h, bt.w, bt.l),
       (bt.l, bt.h, bt.w), (bt.h, bt.l, bt.w), (bt.w, bt.l, bt.h)] := by
    simp [generate_simple_blocks, initFromBoxtype, dimOf, hl, hw, hh]
  constructor
  · have hlen := congrArg List.length hgen
    simpa using hlen
  · rw [hgen, Multiset.coe_eq_coe]
    exact perm_six bt.l bt.w bt.h

/-- Witness for C8: the 3×4×5 box type with all rotations. -/
theorem generate_simple_blocks_all_rotations_witness :
    (generate_simple_blocks [btAll]).length = 6 ∧
    ((generate_simple_blocks [btAll]).map (fun b => (b.l, b.w, b.h)) :
        Multiset (Int × Int × Int)) =
      ↑[(btAll.l, btAll.w, btAll.h), (btAll.l, btAll.h, btAll.w),
         (btAll.w, btAll.l, btAll.h), (btAll.w, btAll.h, btAll.l),
         (btAll.h, btAll.l, btAll.w), (btAll.h, btAll.w, btAll.l)] :=
  generate_simple_blocks_all_rotations btAll rfl rfl rfl

/-- C2: `Block.add_block` passes the placed child (not the enclosing
container) to `FreeSpace.crop`, so after placing a 10×10×10 leaf into the
20×20×20 container every emitted `Space` carries the child's dims
`(10, 10, 10)` as its container reference, not the container's `(20, 20, 20)`. -/
theorem crop_spaces_carry_child_dims :
    mkEmptyBlock cfgOrigin 20 20 20 = some cont20 ∧
    (child10.l, child10.w, child10.h) = (10, 10, 10) ∧
    cont20' = Block.addBlock cfgOrigin cont20 child10 0 0 0 ∧
    cont20'.free_space.map (fun s => s.containerDims) =
      [(10, 10, 10), (10, 10, 10), (10, 10, 10)] ∧
    ((10, 10, 10) : Int × Int × Int) ≠ (20, 20, 20) :=
  ⟨by decide, by decide, rfl, by decide, by decide⟩

theorem mem_ite_singleton {c : Prop} [Decidable c] {x y : Aabb} :
    (x ∈ if c then [y] else []) ↔ c ∧ x = y := by
  split <;> simp_all

theorem mem_subtract {A B piece : Aabb} :
    piece ∈ Aabb.subtract A B ↔
      (B.xmax < A.xmax ∧ piece = ⟨B.xmax, A.xmax, A.ymin, A.ymax, A.zmin, A.zmax⟩) ∨
      (B.ymax < A.ymax ∧ piece = ⟨A.xmin, A.xmax, B.ymax, A.ymax, A.zmin, A.zmax⟩) ∨
      (B.zmax < A.zmax ∧ piece = ⟨A.xmin, A.xmax, A.ymin, A.ymax, B.zmax, A.zmax⟩) ∨
      (B.xmin > A.xmin ∧ piece = ⟨A.xmin, B.xmin, A.ymin, A.ymax, A.zmin, A.zmax⟩) ∨
      (B.ymin > A.ymin ∧ piece = ⟨A.xmin, A.xmax, A.ymin, B.ymin, A.zmin, A.zmax⟩) ∨
      (B.zmin > A.zmin ∧ piece = ⟨A.xmin, A.xmax, A.ymin, A.ymax, A.zmin, B.zmin⟩) := by
  simp [Aabb.subtract, mem_ite_singleton, or_assoc]

/-- C1 (amended): for valid, (touch-)intersecting boxes the subtraction pieces
cover exactly the integer points of `A \ B`; the pieces overlap, and on the
spec's 10³ minus 6³ example the six pieces' volumes sum to 1200, not
`vol(A) − vol(A∩B) = 784`. -/
theorem subtract_union_and_example :
    (∀ A B : Aabb, A.valid → Aabb.intersects A B → ∀ p : Int × Int × Int,
      ((∃ piece ∈ Aabb.subtract A B, piece.containsPt p) ↔
        (A.containsPt p ∧ ¬ B.containsPt p))) ∧
    (Aabb.subtract aabbA aabbB).length = 6 ∧
    ((Aabb.subtract aabbA aabbB).map Aabb.volume).sum = 1200 := by
  refine ⟨?_, by decide, by decide⟩
  intro A B hA hAB p
  obtain ⟨hAx, hAy, hAz⟩ := hA
  obtain ⟨h1, h2, h3, h4, h5, h6⟩ := hAB
  constructor
  · rintro ⟨piece, hmem, hpt⟩
    rw [mem_subtract] at hmem
    rcases hmem with ⟨hc, rfl⟩ | ⟨hc, rfl⟩ | ⟨hc, rfl⟩ | ⟨hc, rfl⟩ | ⟨hc, rfl⟩ |
      ⟨hc, rfl⟩ <;>
    · simp only [Aabb.containsPt] at hpt ⊢
      omega
  · rintro ⟨hpA, hpB⟩
    simp only [Aabb.containsPt] at hpA hpB
    obtain ⟨pa1, pa2, pa3, pa4, pa5, pa6⟩ := hpA
    rw [not_and_or, not_and_or, not_and_or, not_and_or, not_and_or] at hpB
    rcases hpB with hb | hb | hb | hb | hb | hb
    · refine ⟨⟨A.xmin, B.xmin, A.ymin, A.ymax, A.zmin, A.zmax⟩, ?_, ?_⟩
      · rw [mem_subtract]
        exact Or.inr (Or.inr (Or.inr (Or.inl ⟨by omega, rfl⟩)))
      · simp only [Aabb.containsPt]
        omega
    · refine ⟨⟨B.xmax, A.xmax, A.ymin, A.ymax, A.zmin, A.zmax⟩, ?_, ?_⟩
      · rw [mem_subtract]
        exact Or.inl ⟨by omega, rfl⟩
      · simp only [Aabb.containsPt]
        omega
    · refine ⟨⟨A.xmin, A.xmax, A.ymin, B.ymin, A.zmin, A.zmax⟩, ?_, ?_⟩
      · rw [mem_subtract]
        exact Or.inr (Or.inr (Or.inr (Or.inr (Or.inl ⟨by omega, rfl⟩))))
      · simp only [Aabb.containsPt]
        omega
    · refine ⟨⟨A.xmin, A.xmax, B.ymax, A.ymax, A.zmin, A.zmax⟩, ?_, ?_⟩
      · rw [mem_subtract]
        exact Or.inr (Or.inl ⟨by omega, rfl⟩)
      · simp only [Aabb.containsPt]
        omega
    · refine ⟨⟨A.xmin, A.xmax, A.ymin, A.ymax, A.zmin, B.zmin⟩, ?_, ?_⟩
      · rw [mem_subtract]
        exact Or.inr (Or.inr (Or.inr (Or.inr (Or.inr ⟨by omega, rfl⟩))))
      · simp only [Aabb.containsPt]
        omega
    · refine ⟨⟨A.xmin, A.xmax, A.ymin, A.ymax, B.zmax, A.zmax⟩, ?_, ?_⟩
      · rw [mem_subtract]
        exact Or.inr (Or.inr (Or.inl ⟨by omega, rfl⟩))
      · simp only [Aabb.containsPt]
        omega

/-- Witness for C1 (amended): instantiated on the 10³ / 6³ example at the
point `(9, 0, 0)`, which lies in `A \ B`. -/
theorem subtract_union_witness :
    (∃ piece ∈ Aabb.subtract aabbA aabbB, piece.containsPt (9, 0, 0)) ↔
      (aabbA.containsPt (9, 0, 0) ∧ ¬ aabbB.containsPt (9, 0, 0)) :=
  subtract_union_and_example.1 aabbA aabbB (by decide) (by decide) (9, 0, 0)

/-- Counterexample to C1 as stated: on the spec's own example the six pieces'
volumes sum to 1200 ≠ 784 (the pieces overlap), and for a disjoint subtrahend
the pieces even cover points outside `A`, so the union is not `A \ B` for
every pair. -/
theorem subtract_volume_sum_cex :
    ((Aabb.subtract aabbA aabbB).map Aabb.volume).sum = 1200 ∧
    ((1200 : Int) ≠ 1000 - 216) ∧
    (∃ piece ∈ Aabb.subtract aabbD1 aabbD2, piece.containsPt (1, 5, 5)) ∧
    ¬ aabbD1.containsPt (1, 5, 5) := by
  exact ⟨by decide, by decide, by decide, by decide⟩

theorem mkSpace_zmin (cfg : Config) (x1 x2 y1 y2 z1 z2 : Int)
    (cd : Int × Int × Int) : (mkSpace cfg x1 x2 y1 y2 z1 z2 cd).zmin = z1 := rfl

/-- C7: when the placed box's top is strictly below the space's top, the
subtraction emits exactly one +z subspace (the unique emitted space whose
`zmin` equals `placed.zmax`): restricted to the placed box's xy footprint when
vertical stability is on, and spanning the space's full xy extent when it is
off. -/
theorem space_subtract_plus_z (cfg : Config) (s : Space) (p : Aabb)
    (cd : Int × Int × Int)
    (hstrict : Aabb.strict_intersects s.toAabb p) (hz : p.zmax < s.zmax) :
    (cfg.vertical_stability = true →
      (Space.subtract cfg s p cd).filter (fun sp => sp.zmin == p.zmax) =
        [mkSpace cfg p.xmin p.xmax p.ymin p.ymax p.zmax s.zmax cd]) ∧
    (cfg.vertical_stability = false →
      (Space.subtract cfg s p cd).filter (fun sp => sp.zmin == p.zmax) =
        [mkSpace cfg s.xmin s.xmax s.ymin s.ymax p.zmax s.zmax cd]) := by
  have hzlt : s.zmin < p.zmax := hstrict.2.2.2.2.1
  have hne : s.zmin ≠ p.zmax := by omega
  constructor <;> intro hvs <;>
  · unfold Space.subtract
    rw [hvs]
    split_ifs <;>
      simp_all [List.filter_append, List.filter_cons, mkSpace_zmin, beq_iff_eq]

/-- Witness for C7: the 20³ interior space minus the placed 10³ box, with
vertical stability on: the +z slab sits on the placed box's footprint. -/
theorem space_subtract_plus_z_witness :
    (Space.subtract cfgOrigin (mkSpace cfgOrigin 0 20 0 20 0 20 (20, 20, 20))
        aabbA (10, 10, 10)).filter (fun sp => sp.zmin == aabbA.zmax) =
      [mkSpace cfgOrigin aabbA.xmin aabbA.xmax aabbA.ymin aabbA.ymax aabbA.zmax
        (mkSpace cfgOrigin 0 20 0 20 0 20 (20, 20, 20)).zmax (10, 10, 10)] :=
  (space_subtract_plus_z cfgOrigin (mkSpace cfgOrigin 0 20 0 20 0 20 (20, 20, 20))
    aabbA (10, 10, 10) (by decide) (by decide)).1 rfl

end CLP
